import Mathlib

/-!
Verification development for the cross-seed decision engine, conflict
resolver and collision recorder (packages/cross-seed/src/decide.ts and
packages/cross-seed/src/trpc/routers/conflictRules.ts).

The TypeScript sources are shallowly embedded: pure functions become Lean
functions, database tables become lists of row structures, and stateful
operations become explicit state-passing functions.  JavaScript numbers
are modelled as Int (sizes, timestamps) and Rat (fractional factors and
ratios); JavaScript string/number truthiness on nullable columns is made
explicit via helper predicates.  External collaborators (torrent clients,
the snatcher, the name-parsing regexes defined outside decide.ts) are
modelled as parameters carrying their observable outcomes.
-/

namespace CrossSeed

/-- The decision taxonomy from constants.ts, as used by decide.ts. -/
inductive Decision
  | MATCH
  | MATCH_SIZE_ONLY
  | MATCH_PARTIAL
  | SIZE_MISMATCH
  | PARTIAL_SIZE_MISMATCH
  | FILE_TREE_MISMATCH
  | RELEASE_GROUP_MISMATCH
  | RESOLUTION_MISMATCH
  | SOURCE_MISMATCH
  | PROPER_REPACK_MISMATCH
  | FUZZY_SIZE_MISMATCH
  | NO_DOWNLOAD_LINK
  | BLOCKED_RELEASE
  | MAGNET_LINK
  | RATE_LIMITED
  | DOWNLOAD_FAILED
  | SAME_INFO_HASH
  | INFO_HASH_ALREADY_EXISTS
  | INFO_HASH_ALREADY_EXISTS_ANOTHER_TRACKER
deriving DecidableEq

/-- matchMode runtime configuration values. -/
inductive MatchMode
  | STRICT
  | FLEXIBLE
  | PARTIAL
deriving DecidableEq

/-- JavaScript truthiness of a nullable string column: null/undefined and
the empty string are falsy. -/
def strTruthy : Option String → Bool
  | none => false
  | some s => !(s == "")

/-- JavaScript truthiness of a nullable numeric id column: null/undefined
and 0 are falsy. -/
def natIdTruthy : Option Nat → Bool
  | none => false
  | some n => !(n == 0)

/-- ASCII whitespace test for the trim model. -/
def charWS (c : Char) : Bool := c == ' ' || c == '\t' || c == '\n' || c == '\r'

/-- Model of String.prototype.trim(), defined by structural recursion on
the character list so concrete instances reduce in the kernel. -/
def strTrim (s : String) : String :=
  ⟨((s.data.dropWhile charWS).reverse.dropWhile charWS).reverse⟩

/-- Model of String.prototype.toLowerCase() (ASCII range, which covers
tracker hostnames and release-group tokens). -/
def strLower (s : String) : String := ⟨s.data.map Char.toLower⟩

/-- normalizeTrackerKey from decide.ts: trim and lowercase. -/
def normalizeTrackerKey (s : String) : String := strLower (strTrim s)

/-- Model of String.prototype.startsWith, via the character lists so
concrete instances reduce in the kernel. -/
def strStartsWith (s pre : String) : Bool := pre.data.isPrefixOf s.data

/-- Insert a string into a list sorted by the Ord String comparison,
modelling the deterministic Array.prototype.sort() step. -/
def insertSorted (x : String) : List String → List String
  | [] => [x]
  | y :: ys => if compare x y != Ordering.gt then x :: y :: ys else y :: insertSorted x ys

/-- Deterministic string sort used to model Array.prototype.sort(). -/
def sortStrings (l : List String) : List String := l.foldr insertSorted []

/-- normalizeTrackers from decide.ts and conflictRules.ts: trim each
entry, drop empties, deduplicate, sort.  The JS code deduplicates with a
Set before sorting; since the result is sorted, any deduplication keeping
one copy of each element produces the same list. -/
def normalizeTrackers (ts : List String) : List String :=
  sortStrings (((ts.map strTrim).filter (fun t => !(t == ""))).dedup)

/-- A conflict rule as produced by getConflictRules (decide.ts): rows
ordered by priority ascending, with trackers already parsed and
normalized. -/
structure ConflictRule where
  allIndexers : Bool
  trackers : List String
deriving DecidableEq

/-- Inner loop of getTrackerPriority (decide.ts): scan rules in order,
returning the 0-based index of the first rule matching the normalized
tracker. -/
def getTrackerPriorityAux (normalized : String) (indexerTrackers : List String) :
    List ConflictRule → Nat → Option Nat
  | [], _ => none
  | rule :: rest, i =>
    if rule.allIndexers && indexerTrackers.contains normalized then some i
    else if rule.trackers.any (fun t => normalizeTrackerKey t == normalized) then some i
    else getTrackerPriorityAux normalized indexerTrackers rest (i + 1)

/-- getTrackerPriority from decide.ts. -/
def getTrackerPriority (tracker : String) (rules : List ConflictRule)
    (indexerTrackers : List String) : Option Nat :=
  getTrackerPriorityAux (normalizeTrackerKey tracker) indexerTrackers rules 0

/-- getBestTrackerPriority from decide.ts: minimum matching priority over
the given trackers, none when no tracker matches any rule. -/
def getBestTrackerPriority (trackers : List String) (rules : List ConflictRule)
    (indexerTrackers : List String) : Option Nat :=
  trackers.foldl
    (fun best t =>
      match getTrackerPriority t rules indexerTrackers with
      | none => best
      | some p => some (match best with | none => p | some b => min b p))
    none

/-- A client_searchee row as read by decide.ts (info_hash, client_host,
parsed trackers JSON). -/
structure ClientSearcheeRow where
  info_hash : String
  client_host : Option String
  trackers : List String
deriving DecidableEq

/-- A torrent client as seen through removeTorrentFromClients: its host
and the observable outcomes of the two driver calls.  removeOk models
that removeTorrent returned ok(true); absenceConfirmed models that
isTorrentInClient returned ok(false). -/
structure TorrentClient where
  clientHost : String
  removeOk : Bool
  absenceConfirmed : Bool
deriving DecidableEq

/-- The per-client delete in removeTorrentFromClients:
db("client_searchee").where({info_hash, client_host}).del(). -/
def deleteClientSearchee (table : List ClientSearcheeRow) (infoHash host : String) :
    List ClientSearcheeRow :=
  table.filter (fun r => !(r.info_hash == infoHash && r.client_host == some host))

/-- One iteration of the removeTorrentFromClients loop body (decide.ts):
none signals an abort (missing host, unknown client, failed removal, or
failed absence verification, each of which returns false with the table
as mutated so far); some gives the table after deleting this client's
client_searchee row, which happens immediately after its removal is
verified. -/
def removeStep (clients : List TorrentClient) (infoHash : String)
    (row : ClientSearcheeRow) (table : List ClientSearcheeRow) :
    Option (List ClientSearcheeRow) :=
  match row.client_host with
  | none => none
  | some host =>
    match clients.find? (fun c => c.clientHost == host) with
    | none => none
    | some client =>
      if !client.removeOk then none
      else if !client.absenceConfirmed then none
      else some (deleteClientSearchee table infoHash host)

/-- The loop of removeTorrentFromClients (decide.ts): iterate over the
snapshot of owning rows threading the table through removeStep; an
aborting step returns false with the table unchanged by that step. -/
def removeLoop (clients : List TorrentClient) (infoHash : String) :
    List ClientSearcheeRow → List ClientSearcheeRow → Bool × List ClientSearcheeRow
  | [], table => (true, table)
  | row :: rest, table =>
    match removeStep clients infoHash row table with
    | none => (false, table)
    | some table2 => removeLoop clients infoHash rest table2

/-- removeTorrentFromClients from decide.ts, over an explicit
client_searchee table.  Returns the boolean result together with the
table after the call. -/
def removeTorrentFromClients (clients : List TorrentClient) (infoHash : String)
    (table : List ClientSearcheeRow) : Bool × List ClientSearcheeRow :=
  let rows := table.filter (fun r => r.info_hash == infoHash)
  if rows.isEmpty then (false, table)
  else removeLoop clients infoHash rows table

/-- Outcome of resolveConflictRules: whether removeTorrentFromClients was
invoked, and the returned boolean. -/
structure ConflictResolution where
  attemptedRemoval : Bool
  result : Bool
deriving DecidableEq

/-- resolveConflictRules from decide.ts.  rules is the output of
getConflictRules (ordered by priority ascending); indexerTrackers is the
normalized indexer tracker set; the client_searchee table supplies both
the incumbent tracker lists and the rows driving removal. -/
def resolveConflictRules (rules : List ConflictRule) (indexerTrackers : List String)
    (clients : List TorrentClient) (infoHash : String) (candidateTrackers : List String)
    (table : List ClientSearcheeRow) : ConflictResolution × List ClientSearcheeRow :=
  if rules.isEmpty then (⟨false, false⟩, table)
  else
    match getBestTrackerPriority candidateTrackers rules indexerTrackers with
    | none => (⟨false, false⟩, table)
    | some candidatePriority =>
      let rows := table.filter (fun r => r.info_hash == infoHash)
      if rows.isEmpty then (⟨false, false⟩, table)
      else
        let existingTrackers := (rows.map (fun r => r.trackers)).flatten
        let bestExistingPriority :=
          (getBestTrackerPriority existingTrackers rules indexerTrackers).getD rules.length
        if bestExistingPriority ≤ candidatePriority then (⟨false, false⟩, table)
        else
          let res := removeTorrentFromClients clients infoHash table
          (⟨true, res.1⟩, res.2)

/-- A file entry of a torrent or searchee (searchee.ts File shape). -/
structure File where
  path : String
  name : String
  length : Int
deriving DecidableEq

/-- A parsed torrent, with the fields of Metafile that decide.ts reads.
privateFlag models raw.info.private from the bencoded info dictionary
(some 1 when the integer 1 is present, some n for another integer, none
when the key is absent). -/
structure Metafile where
  infoHash : String
  name : String
  files : List File
  length : Int
  pieceLength : Int
  trackers : List String
  privateFlag : Option Int
deriving DecidableEq

/-- A local searchee with the fields decide.ts reads.  fuzzySizeFactor
and minSizeRatio carry the values of the external helpers
getFuzzySizeFactor(searchee) and getMinSizeRatio(searchee) from
searchee.ts, which decide.ts treats as opaque per-searchee constants. -/
structure Searchee where
  title : String
  infoHash : Option String
  path : Option String
  files : List File
  length : Int
  fuzzySizeFactor : ℚ
  minSizeRatio : ℚ
deriving DecidableEq

/-- compareFileTrees from decide.ts: every candidate file must be matched
by some searchee file of equal length and equal name (when the searchee
has neither infoHash nor path) or equal path (otherwise). -/
def compareFileTrees (candidate : Metafile) (searchee : Searchee) : Bool :=
  let cmp : File → File → Bool :=
    if !(strTruthy searchee.infoHash) && !(strTruthy searchee.path) then
      fun elOfA elOfB => elOfB.length == elOfA.length && elOfB.name == elOfA.name
    else
      fun elOfA elOfB => elOfB.length == elOfA.length && elOfB.path == elOfA.path
  candidate.files.all (fun elOfA => searchee.files.any (fun elOfB => cmp elOfA elOfB))

/-- The loop of compareFileTreesIgnoringNames from decide.ts: greedily
consume available searchee files, filtering by equal length and, when
more than one file has that length, additionally by equal name; fail when
no file remains; otherwise remove the first match (indexOf + splice). -/
def consumeSizeOnly : List File → List File → Bool
  | [], _ => true
  | candidateFile :: rest, availableFiles =>
    let matched := availableFiles.filter (fun sf => sf.length == candidateFile.length)
    let matched :=
      if matched.length > 1 then matched.filter (fun sf => sf.name == candidateFile.name)
      else matched
    match matched with
    | [] => false
    | m :: _ => consumeSizeOnly rest (availableFiles.erase m)

/-- compareFileTreesIgnoringNames from decide.ts. -/
def compareFileTreesIgnoringNames (candidate : Metafile) (searchee : Searchee) : Bool :=
  consumeSizeOnly candidate.files searchee.files

/-- getPartialSizeRatio from decide.ts: fraction of the candidate payload
whose file lengths appear among the searchee file lengths. -/
def getPartialSizeRatio (candidate : Metafile) (searchee : Searchee) : ℚ :=
  let matchedSizes : Int :=
    candidate.files.foldl
      (fun acc cf =>
        if searchee.files.any (fun sf => sf.length == cf.length) then acc + cf.length
        else acc)
      0
  (matchedSizes : ℚ) / (candidate.length : ℚ)

/-- The accumulation loop of compareFileTreesPartial from decide.ts: like
consumeSizeOnly but skipping unmatched files and summing matched
lengths. -/
def consumePartialSizes : List File → List File → Int → Int
  | [], _, acc => acc
  | candidateFile :: rest, availableFiles, acc =>
    let matched := availableFiles.filter (fun sf => sf.length == candidateFile.length)
    let matched :=
      if matched.length > 1 then matched.filter (fun sf => sf.name == candidateFile.name)
      else matched
    match matched with
    | [] => consumePartialSizes rest availableFiles acc
    | m :: _ => consumePartialSizes rest (availableFiles.erase m) (acc + candidateFile.length)

/-- compareFileTreesPartial from decide.ts: aligned-piece coverage of the
greedily matched sizes must reach minSizeRatio. -/
def compareFileTreesPartial (candidate : Metafile) (searchee : Searchee) : Bool :=
  let matchedSizes := consumePartialSizes candidate.files searchee.files 0
  let totalPieces : Int := ⌈(candidate.length : ℚ) / (candidate.pieceLength : ℚ)⌉
  let availablePieces : Int := ⌊(matchedSizes : ℚ) / (candidate.pieceLength : ℚ)⌋
  decide (searchee.minSizeRatio ≤ (availablePieces : ℚ) / (totalPieces : ℚ))

/-- The content-matching tail of assessCandidate (decide.ts lines
809-838), reached after identity, blocklist and season-pack checks. -/
def assessContent (matchMode : MatchMode) (metafile : Metafile) (searchee : Searchee) :
    Decision :=
  if compareFileTrees metafile searchee then Decision.MATCH
  else if compareFileTreesIgnoringNames metafile searchee && !(matchMode == MatchMode.STRICT) then
    Decision.MATCH_SIZE_ONLY
  else if matchMode == MatchMode.PARTIAL then
    if !(decide (searchee.minSizeRatio ≤ getPartialSizeRatio metafile searchee)) then
      Decision.PARTIAL_SIZE_MISMATCH
    else if compareFileTreesPartial metafile searchee then Decision.MATCH_PARTIAL
    else Decision.FILE_TREE_MISMATCH
  else if !(compareFileTreesIgnoringNames metafile searchee) then Decision.SIZE_MISMATCH
  else Decision.FILE_TREE_MISMATCH

/-- Modelled from the spec: the spec phrase "file trees admit a size-only
bijection" (a bijection between candidate and searchee files preserving
length, names free) holds exactly when the multisets of file lengths
coincide.  This definition follows the spec wording and is compared
against the source function compareFileTreesIgnoringNames. -/
def sizeOnlyBijectionExistsSpec (candidate : Metafile) (searchee : Searchee) : Bool :=
  decide ((candidate.files.map (fun f => f.length)).Perm
    (searchee.files.map (fun f => f.length)))

/-- A search hit from an indexer (pipeline.ts Candidate shape), with the
fields decide.ts reads. -/
structure Candidate where
  name : String
  guid : String
  link : Option String
  tracker : String
  size : Option ℚ
deriving DecidableEq

/-- The outcomes of the external name parsers from constants.ts and
searchee.ts that the decide.ts pre-filter predicates consume:
getReleaseGroup, RES_STRICT_REGEX (group res), parseSource,
REPACK_PROPER_REGEX.test, ANIME_GROUP_REGEX (group group), stripExtension
and extractInt.  decide.ts only composes their results, so they enter the
embedding as an environment of opaque functions. -/
structure NameParsers where
  getReleaseGroup : String → Option String
  resStrict : String → Option String
  parseSource : String → Option String
  repackProperTest : String → Bool
  animeGroup : String → Option String
  stripExtension : String → String
  extractInt : String → Int

/-- fuzzySizeDoesMatch from decide.ts. -/
def fuzzySizeDoesMatch (resultSize : ℚ) (searchee : Searchee) : Bool :=
  let fuzzySizeFactor := searchee.fuzzySizeFactor
  let length : ℚ := (searchee.length : ℚ)
  let lowerBound := length - fuzzySizeFactor * length
  let upperBound := length + fuzzySizeFactor * length
  decide (lowerBound ≤ resultSize) && decide (resultSize ≤ upperBound)

/-- resolutionDoesMatch from decide.ts. -/
def resolutionDoesMatch (env : NameParsers) (searcheeTitle candidateName : String) : Bool :=
  let searcheeRes := (env.resStrict searcheeTitle).map (fun r => strLower (strTrim r))
  let candidateRes := (env.resStrict candidateName).map (fun r => strLower (strTrim r))
  if !(strTruthy searcheeRes) || !(strTruthy candidateRes) then true
  else env.extractInt (searcheeRes.getD "") == env.extractInt (candidateRes.getD "")

/-- releaseGroupDoesMatch from decide.ts, including the anime-group
fallback branches. -/
def releaseGroupDoesMatch (env : NameParsers) (searcheeTitle candidateName : String) : Bool :=
  let searcheeReleaseGroup :=
    (env.getReleaseGroup (env.stripExtension searcheeTitle)).map strLower
  let candidateReleaseGroup :=
    (env.getReleaseGroup (env.stripExtension candidateName)).map strLower
  if !(strTruthy searcheeReleaseGroup) || !(strTruthy candidateReleaseGroup) then true
  else
    let sv := searcheeReleaseGroup.getD ""
    let cv := candidateReleaseGroup.getD ""
    if strStartsWith sv cv || strStartsWith cv sv then true
    else
      let searcheeAnimeGroup :=
        (env.animeGroup searcheeTitle).map (fun g => strLower (strTrim g))
      let candidateAnimeGroup :=
        (env.animeGroup candidateName).map (fun g => strLower (strTrim g))
      if !(strTruthy searcheeAnimeGroup) && !(strTruthy candidateAnimeGroup) then false
      else if searcheeAnimeGroup == candidateAnimeGroup then true
      else if strTruthy searcheeAnimeGroup && searcheeAnimeGroup == some cv then true
      else if strTruthy candidateAnimeGroup && some sv == candidateAnimeGroup then true
      else false

/-- sourceDoesMatch from decide.ts. -/
def sourceDoesMatch (env : NameParsers) (searcheeTitle candidateName : String) : Bool :=
  let searcheeSource := env.parseSource searcheeTitle
  let candidateSource := env.parseSource candidateName
  if !(strTruthy searcheeSource) || !(strTruthy candidateSource) then true
  else searcheeSource == candidateSource

/-- releaseVersionDoesMatch from decide.ts. -/
def releaseVersionDoesMatch (env : NameParsers) (searcheeName candidateName : String) : Bool :=
  env.repackProperTest searcheeName == env.repackProperTest candidateName

/-- The pre-filter block of assessCandidate (decide.ts lines 694-715),
applied only in candidate form: release group, resolution, source,
proper/repack, fuzzy size (when the candidate advertises a truthy size),
download-link presence.  Returns the rejection decision of the first
failing predicate, none when all pass. -/
def assessCandidatePrefilters (env : NameParsers) (candidate : Candidate)
    (searchee : Searchee) : Option Decision :=
  let name := candidate.name
  if !(releaseGroupDoesMatch env searchee.title name) then
    some Decision.RELEASE_GROUP_MISMATCH
  else if !(resolutionDoesMatch env searchee.title name) then
    some Decision.RESOLUTION_MISMATCH
  else if !(sourceDoesMatch env searchee.title name) then
    some Decision.SOURCE_MISMATCH
  else if !(releaseVersionDoesMatch env searchee.title name) then
    some Decision.PROPER_REPACK_MISMATCH
  else if (match candidate.size with
           | some size => !(size == 0) && !(fuzzySizeDoesMatch size searchee)
           | none => false) then
    some Decision.FUZZY_SIZE_MISMATCH
  else if !(strTruthy candidate.link) then
    some Decision.NO_DOWNLOAD_LINK
  else none

/-- The stages of assessCandidate in candidate form up to the snatch call:
either a pre-filter rejection, a blocklist rejection of the searchee
(findBlockedStringInReleaseMaybe, modelled by its boolean outcome), or
the point where the snatch I/O is initiated. -/
inductive CandidateStage
  | preFilterReject (d : Decision)
  | blockedPreSnatch
  | snatchInitiated
deriving DecidableEq

/-- assessCandidate (decide.ts) in candidate form, followed until the
snatch call: pre-filters first, then the searchee blocklist check, then
snatch.  searcheeBlocked carries the truthiness of
findBlockedStringInReleaseMaybe(searchee, blockList). -/
def candidateStageBeforeSnatch (env : NameParsers) (candidate : Candidate)
    (searchee : Searchee) (searcheeBlocked : Bool) : CandidateStage :=
  match assessCandidatePrefilters env candidate searchee with
  | some d => CandidateStage.preFilterReject d
  | none =>
    if searcheeBlocked then CandidateStage.blockedPreSnatch
    else CandidateStage.snatchInitiated

/-- getTorrentPrivateFlag from decide.ts: raw.info.private of 1 is true,
0 is false, anything else (absent, other integers, no metafile) is
unknown. -/
def getTorrentPrivateFlag (meta : Option Metafile) : Option Bool :=
  match meta with
  | none => none
  | some m =>
    match m.privateFlag with
    | some flag => if flag == 1 then some true else if flag == 0 then some false else none
    | none => none

/-- canRecordPrivateCollision from decide.ts (its logging dropped):
record only when the candidate metafile is known to be private. -/
def canRecordPrivateCollision (candidateMetafile : Option Metafile) : Bool :=
  getTorrentPrivateFlag candidateMetafile == some true

/-- The trackerMismatch payload computed by logAnnounceMismatch. -/
structure TrackerMismatchInfo where
  candidateTrackers : List String
  knownTrackers : List String
deriving DecidableEq

/-- A collisions-table row (migrations 17-19 and part_002: decision_id
primary key, candidate_trackers / known_trackers JSON payloads modelled
as the serialized lists, first_seen, last_seen, updated_at). -/
structure CollisionRow where
  decisionId : Nat
  candidateTrackers : List String
  knownTrackers : List String
  firstSeen : Int
  lastSeen : Int
  updatedAt : Int
deriving DecidableEq

/-- A decision-table row with the columns decide.ts reads and writes. -/
structure DecisionRow where
  id : Nat
  searcheeId : Option Nat
  guid : String
  infoHash : Option String
  decision : Decision
  firstSeen : Int
  lastSeen : Int
  fuzzySizeFactor : ℚ
deriving DecidableEq

/-- A searchee-table row (id, name). -/
structure SearcheeRow where
  id : Nat
  name : Option String
deriving DecidableEq

/-- The database state the collision recorder touches. -/
structure Db where
  searchees : List SearcheeRow
  decisions : List DecisionRow
  collisions : List CollisionRow
deriving DecidableEq

/-- The duplicate search of upsertCollisionRecord (decide.ts lines
119-153): look up the decision row and its searchee name, then find a
collisions row that joins to a decision with the same info_hash and a
searchee with the same name, carries identical candidate_trackers and
known_trackers payloads, and belongs to a different decision_id.  Returns
that row's decision_id.  The JS guards use string/number truthiness on
the nullable columns. -/
def collisionDedupTarget (dbState : Db) (decisionId : Nat)
    (candTrackers knownTrackers : List String) : Option Nat :=
  match dbState.decisions.find? (fun d => d.id == decisionId) with
  | none => none
  | some decisionRow =>
    if strTruthy decisionRow.infoHash && natIdTruthy decisionRow.searcheeId then
      match dbState.searchees.find? (fun s => some s.id == decisionRow.searcheeId) with
      | none => none
      | some searcheeRow =>
        if strTruthy searcheeRow.name then
          (dbState.collisions.find? (fun c =>
            (match dbState.decisions.find? (fun d => d.id == c.decisionId) with
             | none => false
             | some d =>
               d.infoHash == decisionRow.infoHash &&
               (match dbState.searchees.find? (fun s => some s.id == d.searcheeId) with
                | none => false
                | some s => s.name == searcheeRow.name)) &&
            c.candidateTrackers == candTrackers &&
            c.knownTrackers == knownTrackers &&
            !(c.decisionId == decisionId))).map (fun c => c.decisionId)
        else none
    else none

/-- The insert ... onConflict("decision_id").merge(...) of
upsertCollisionRecord: when a row with this decision_id exists, update
only candidate_trackers, known_trackers, last_seen and updated_at;
otherwise insert the payload.  first_seen is not in the merge list. -/
def mergeCollisionRow (collisions : List CollisionRow) (payload : CollisionRow) :
    List CollisionRow :=
  if collisions.any (fun c => c.decisionId == payload.decisionId) then
    collisions.map (fun c =>
      if c.decisionId == payload.decisionId then
        { c with
          candidateTrackers := payload.candidateTrackers
          knownTrackers := payload.knownTrackers
          lastSeen := payload.lastSeen
          updatedAt := payload.updatedAt }
      else c)
  else collisions ++ [payload]

/-- deleteCollisionRecord from decide.ts. -/
def deleteCollisionRecord (collisions : List CollisionRow) (decisionId : Nat) :
    List CollisionRow :=
  collisions.filter (fun c => !(c.decisionId == decisionId))

/-- upsertCollisionRecord from decide.ts: build the payload, run the
duplicate search; when an equivalent row under another decision_id
exists, refresh its last_seen/updated_at and delete this decision_id's
row; otherwise insert with on-conflict merge. -/
def upsertCollisionRecord (dbState : Db) (decisionId : Nat) (trackerMismatch : TrackerMismatchInfo)
    (firstSeen lastSeen now : Int) : Db :=
  let payload : CollisionRow :=
    ⟨decisionId, trackerMismatch.candidateTrackers, trackerMismatch.knownTrackers,
      firstSeen, lastSeen, now⟩
  match collisionDedupTarget dbState decisionId payload.candidateTrackers
      payload.knownTrackers with
  | some existingId =>
    { dbState with
      collisions :=
        (dbState.collisions.map (fun c =>
          if c.decisionId == existingId then
            { c with lastSeen := payload.lastSeen, updatedAt := payload.updatedAt }
          else c)).filter (fun c => !(c.decisionId == decisionId)) }
  | none => { dbState with collisions := mergeCollisionRow dbState.collisions payload }

/-- The decision insert with onConflict(["searchee_id","guid"]).merge() of
assessAndSaveResults: on conflict every inserted column is merged. -/
def upsertDecision (decisions : List DecisionRow) (searcheeId : Nat) (guid : String)
    (infoHash : String) (d : Decision) (firstSeen now : Int) (fuzzyFactor : ℚ) :
    List DecisionRow :=
  if decisions.any (fun r => r.searcheeId == some searcheeId && r.guid == guid) then
    decisions.map (fun r =>
      if r.searcheeId == some searcheeId && r.guid == guid then
        { r with
          infoHash := some infoHash
          decision := d
          firstSeen := firstSeen
          lastSeen := now
          fuzzySizeFactor := fuzzyFactor }
      else r)
  else
    decisions ++
      [⟨decisions.foldl (fun m r => max m r.id) 0 + 1, some searcheeId, guid,
        some infoHash, d, firstSeen, now, fuzzyFactor⟩]

/-- The transaction body of assessAndSaveResults (decide.ts lines
1017-1073), run when the assessment has a cached metafile: find the
searchee by title (a missing row throws and rolls the transaction back,
leaving the state unchanged), upsert the decision row keyed by
(searchee_id, guid), re-select it, then either upsert the collision row
(cross-tracker decision with a recorded mismatch and a private candidate)
or delete it. -/
def saveAssessmentStep (dbState : Db) (searcheeTitle guid : String)
    (assessmentDecision : Decision) (mismatch : Option TrackerMismatchInfo)
    (metafile : Metafile) (firstSeen now : Int) (fuzzyFactor : ℚ) : Db :=
  match dbState.searchees.find? (fun s => s.name == some searcheeTitle) with
  | none => dbState
  | some searcheeRow =>
    let decisions :=
      upsertDecision dbState.decisions searcheeRow.id guid metafile.infoHash
        assessmentDecision firstSeen now fuzzyFactor
    let db1 : Db := { dbState with decisions := decisions }
    match decisions.find? (fun r => r.searcheeId == some searcheeRow.id && r.guid == guid) with
    | none => db1
    | some decisionRow =>
      if assessmentDecision == Decision.INFO_HASH_ALREADY_EXISTS_ANOTHER_TRACKER then
        match mismatch with
        | some trackerMismatch =>
          if canRecordPrivateCollision (some metafile) then
            upsertCollisionRecord db1 decisionRow.id trackerMismatch firstSeen now now
          else
            { db1 with collisions := deleteCollisionRecord db1.collisions decisionRow.id }
        | none =>
          { db1 with collisions := deleteCollisionRecord db1.collisions decisionRow.id }
      else
        { db1 with collisions := deleteCollisionRecord db1.collisions decisionRow.id }

/-- Modelled from the spec: isAnyMatchedDecision from constants.ts is not
under src/; the spec's decision taxonomy lists the matched decisions as
MATCH, MATCH_SIZE_ONLY and MATCH_PARTIAL, and the caching wrapper
"preserv[es] any previously-matched decision to avoid regressing". -/
def isAnyMatchedDecision (d : Decision) : Bool :=
  d == Decision.MATCH || d == Decision.MATCH_SIZE_ONLY || d == Decision.MATCH_PARTIAL

/-- The already-injected fast path of assessCandidateCaching (decide.ts
lines 1186-1227), taken when the cached decision's info-hash is excluded
and conflict resolution did not evict: refresh the decision row's
last_seen, rewrite its decision (preserving a previously matched one),
then upsert the collision row when a mismatch was observed and the
candidate metafile (the cached torrent, when one exists) is private,
otherwise delete it.  cachedMeta is none on the cached-decision path with
no cached torrent file. -/
def cachedExcludedFastPath (dbState : Db) (cacheEntryId : Nat) (cachedDecision : Decision)
    (cachedFirstSeen : Option Int) (mismatch : Option TrackerMismatchInfo)
    (cachedMeta : Option Metafile) (now : Int) : Db :=
  let newDecision :=
    if isAnyMatchedDecision cachedDecision then cachedDecision
    else
      match mismatch with
      | some _ => Decision.INFO_HASH_ALREADY_EXISTS_ANOTHER_TRACKER
      | none => Decision.INFO_HASH_ALREADY_EXISTS
  let db1 : Db :=
    { dbState with
      decisions := dbState.decisions.map (fun r =>
        if r.id == cacheEntryId then { r with lastSeen := now, decision := newDecision }
        else r) }
  match mismatch with
  | some trackerMismatch =>
    if canRecordPrivateCollision cachedMeta then
      upsertCollisionRecord db1 cacheEntryId trackerMismatch (cachedFirstSeen.getD now) now now
    else { db1 with collisions := deleteCollisionRecord db1.collisions cacheEntryId }
  | none => { db1 with collisions := deleteCollisionRecord db1.collisions cacheEntryId }

/-- A rule in the saveRules input (trpc/routers/conflictRules.ts): the
zod-validated shape {allIndexers, trackers}. -/
structure ConflictRuleInput where
  allIndexers : Bool
  trackers : List String
deriving DecidableEq

/-- A stored conflict_rules row (migration 23-conflict-rules.ts), without
the auto-increment id, which no reader of the table consumes. -/
structure ConflictRuleStoredRow where
  priority : Nat
  all_indexers : Bool
  trackers : List String
  created_at : Int
  updated_at : Int
deriving DecidableEq

/-- The saveRules mutation (conflictRules.ts lines 86-114): inside one
transaction, delete every stored rule, then (unless the input is empty)
insert the input rules with priority index+1 and normalized trackers.
The transaction is modelled as a single state transformation. -/
def saveRules (rules : List ConflictRuleInput) (now : Int)
    (stored : List ConflictRuleStoredRow) : List ConflictRuleStoredRow :=
  let _ := stored
  if rules.isEmpty then []
  else
    rules.enum.map (fun p =>
      ⟨p.1 + 1, p.2.allIndexers, normalizeTrackers p.2.trackers, now, now⟩)

/-- The rule content of a stored row: what the spec calls the "stored
rule set", independent of the created_at/updated_at bookkeeping. -/
def storedRuleContent (r : ConflictRuleStoredRow) : Nat × Bool × List String :=
  (r.priority, r.all_indexers, r.trackers)
/-! ### Helper lemmas shared by several results -/

theorem deleteCollisionRecord_any_self (l : List CollisionRow) (i : Nat) :
    (deleteCollisionRecord l i).any (fun c => c.decisionId == i) = false := by
  simp only [deleteCollisionRecord, List.any_eq_false]
  intro c hc
  have := (List.mem_filter.mp hc).2
  simpa using this

theorem mergeCollisionRow_any_self (l : List CollisionRow) (p : CollisionRow) :
    (mergeCollisionRow l p).any (fun c => c.decisionId == p.decisionId) = true := by
  unfold mergeCollisionRow
  by_cases h : l.any (fun c => c.decisionId == p.decisionId) = true
  · rw [if_pos h]
    rw [List.any_eq_true] at h
    obtain ⟨c, hc, hcp⟩ := h
    rw [List.any_eq_true]
    refine ⟨_, List.mem_map.mpr ⟨c, hc, rfl⟩, ?_⟩
    simp [hcp]
  · rw [if_neg h]
    rw [List.any_eq_true]
    exact ⟨p, List.mem_append.mpr (Or.inr (by simp)), by simp⟩

theorem collisionDedupTarget_ne (dbState : Db) (decisionId : Nat)
    (candTrackers knownTrackers : List String) (existingId : Nat)
    (h : collisionDedupTarget dbState decisionId candTrackers knownTrackers = some existingId) :
    existingId ≠ decisionId := by
  unfold collisionDedupTarget at h
  split at h
  · exact absurd h (by simp)
  · split at h
    · split at h
      · exact absurd h (by simp)
      · split at h
        · rw [Option.map_eq_some'] at h
          obtain ⟨c, hc, hcid⟩ := h
          have hp := List.find?_some hc
          intro he
          rw [← hcid] at he
          simp only [Bool.and_eq_true, Bool.not_eq_true'] at hp
          rw [he] at hp
          simp at hp
        · exact absurd h (by simp)
    · exact absurd h (by simp)

theorem collisionDedupTarget_eq_none_of_no_payload (dbState : Db) (decisionId : Nat)
    (candTrackers knownTrackers : List String)
    (h : ∀ c ∈ dbState.collisions,
      ¬(c.candidateTrackers = candTrackers ∧ c.knownTrackers = knownTrackers)) :
    collisionDedupTarget dbState decisionId candTrackers knownTrackers = none := by
  unfold collisionDedupTarget
  split
  · rfl
  · split
    · split
      · rfl
      · split
        · rw [Option.map_eq_none']
          rw [List.find?_eq_none]
          intro c hc
          have hnc := h c hc
          by_cases h1 : c.candidateTrackers = candTrackers
          · by_cases h2 : c.knownTrackers = knownTrackers
            · exact absurd ⟨h1, h2⟩ hnc
            · simp [h2]
          · simp [h1]
        · rfl
    · rfl

/-! ### C7: collision dedup transfer on re-announce under a new guid -/

/-- C7: when the duplicate search of upsertCollisionRecord finds a
semantically equivalent collision row under a different decision_id, the
recorder refreshes that row's last_seen and updated_at, deletes any
collision row of the current decision_id, and inserts nothing new: no row
for the current decision_id remains, the row count does not grow, the
equivalent row survives with only its last_seen/updated_at replaced, and
every other row is untouched. -/
theorem upsertCollisionRecord_dedup_transfer (dbState : Db) (decisionId existingId : Nat)
    (trackerMismatch : TrackerMismatchInfo) (firstSeen lastSeen now : Int)
    (h : collisionDedupTarget dbState decisionId trackerMismatch.candidateTrackers
      trackerMismatch.knownTrackers = some existingId) :
    ((upsertCollisionRecord dbState decisionId trackerMismatch firstSeen lastSeen now).collisions.any
        (fun c => c.decisionId == decisionId) = false) ∧
    ((upsertCollisionRecord dbState decisionId trackerMismatch firstSeen lastSeen now).collisions.length ≤
        dbState.collisions.length) ∧
    (∀ c ∈ dbState.collisions, c.decisionId = existingId →
      { c with lastSeen := lastSeen, updatedAt := now } ∈
        (upsertCollisionRecord dbState decisionId trackerMismatch firstSeen lastSeen now).collisions) ∧
    (∀ c ∈ dbState.collisions, c.decisionId ≠ existingId → c.decisionId ≠ decisionId →
      c ∈ (upsertCollisionRecord dbState decisionId trackerMismatch firstSeen lastSeen now).collisions) := by
  have hne := collisionDedupTarget_ne dbState decisionId trackerMismatch.candidateTrackers
    trackerMismatch.knownTrackers existingId h
  simp only [upsertCollisionRecord, h]
  refine ⟨?_, ?_, ?_, ?_⟩
  · simp only [List.any_eq_false]
    intro c hc
    have := (List.mem_filter.mp hc).2
    simpa using this
  · exact le_trans (List.length_filter_le _ _) (by simp)
  · intro c hc hcid
    apply List.mem_filter.mpr
    refine ⟨List.mem_map.mpr ⟨c, hc, by simp [hcid]⟩, ?_⟩
    simp [hcid, hne]
  · intro c hc h1 h2
    apply List.mem_filter.mpr
    refine ⟨List.mem_map.mpr ⟨c, hc, by simp [h1]⟩, ?_⟩
    simp [h2]

/-- C7 witness: a concrete database where decision 11 (guid g2) records
the same collision as decision 10 (guid g1); the upsert for 11 refreshes
row 10 and leaves no row for 11. -/
theorem upsertCollisionRecord_dedup_transfer_witness :
    ((upsertCollisionRecord
        ⟨[⟨1, some "S"⟩],
         [⟨10, some 1, "g1", some "h", Decision.INFO_HASH_ALREADY_EXISTS_ANOTHER_TRACKER, 0, 0, 0⟩,
          ⟨11, some 1, "g2", some "h", Decision.INFO_HASH_ALREADY_EXISTS_ANOTHER_TRACKER, 0, 0, 0⟩],
         [⟨10, ["a"], ["b"], 1, 2, 3⟩, ⟨11, ["a"], ["b"], 4, 5, 6⟩]⟩
        11 ⟨["a"], ["b"]⟩ 7 8 9).collisions.any (fun c => c.decisionId == 11) = false) ∧
    ((upsertCollisionRecord
        ⟨[⟨1, some "S"⟩],
         [⟨10, some 1, "g1", some "h", Decision.INFO_HASH_ALREADY_EXISTS_ANOTHER_TRACKER, 0, 0, 0⟩,
          ⟨11, some 1, "g2", some "h", Decision.INFO_HASH_ALREADY_EXISTS_ANOTHER_TRACKER, 0, 0, 0⟩],
         [⟨10, ["a"], ["b"], 1, 2, 3⟩, ⟨11, ["a"], ["b"], 4, 5, 6⟩]⟩
        11 ⟨["a"], ["b"]⟩ 7 8 9).collisions.length ≤ 2) :=
  ⟨(upsertCollisionRecord_dedup_transfer
      ⟨[⟨1, some "S"⟩],
       [⟨10, some 1, "g1", some "h", Decision.INFO_HASH_ALREADY_EXISTS_ANOTHER_TRACKER, 0, 0, 0⟩,
        ⟨11, some 1, "g2", some "h", Decision.INFO_HASH_ALREADY_EXISTS_ANOTHER_TRACKER, 0, 0, 0⟩],
       [⟨10, ["a"], ["b"], 1, 2, 3⟩, ⟨11, ["a"], ["b"], 4, 5, 6⟩]⟩
      11 10 ⟨["a"], ["b"]⟩ 7 8 9 (by decide)).1,
   (upsertCollisionRecord_dedup_transfer
      ⟨[⟨1, some "S"⟩],
       [⟨10, some 1, "g1", some "h", Decision.INFO_HASH_ALREADY_EXISTS_ANOTHER_TRACKER, 0, 0, 0⟩,
        ⟨11, some 1, "g2", some "h", Decision.INFO_HASH_ALREADY_EXISTS_ANOTHER_TRACKER, 0, 0, 0⟩],
       [⟨10, ["a"], ["b"], 1, 2, 3⟩, ⟨11, ["a"], ["b"], 4, 5, 6⟩]⟩
      11 10 ⟨["a"], ["b"]⟩ 7 8 9 (by decide)).2.1⟩

/-! ### C10: the on-conflict merge preserves first_seen -/

/-- C10: when the duplicate search finds nothing and a collision row for
this decision_id already exists, the on-conflict merge rewrites exactly
candidate_trackers, known_trackers, last_seen and updated_at of that row
(and leaves every other row unchanged): the resulting table is a map that
touches only the row with this decision_id, and the updated row keeps its
original first_seen. -/
theorem upsertCollisionRecord_merge_preserves_firstSeen (dbState : Db) (decisionId : Nat)
    (trackerMismatch : TrackerMismatchInfo) (firstSeen lastSeen now : Int) (c0 : CollisionRow)
    (hd : collisionDedupTarget dbState decisionId trackerMismatch.candidateTrackers
      trackerMismatch.knownTrackers = none)
    (hc : c0 ∈ dbState.collisions) (hid : c0.decisionId = decisionId) :
    ((upsertCollisionRecord dbState decisionId trackerMismatch firstSeen lastSeen now).collisions =
      dbState.collisions.map (fun c =>
        if c.decisionId == decisionId then
          { c with
            candidateTrackers := trackerMismatch.candidateTrackers
            knownTrackers := trackerMismatch.knownTrackers
            lastSeen := lastSeen
            updatedAt := now }
        else c)) ∧
    ({ c0 with
        candidateTrackers := trackerMismatch.candidateTrackers
        knownTrackers := trackerMismatch.knownTrackers
        lastSeen := lastSeen
        updatedAt := now } ∈
      (upsertCollisionRecord dbState decisionId trackerMismatch firstSeen lastSeen now).collisions) ∧
    ({ c0 with
        candidateTrackers := trackerMismatch.candidateTrackers
        knownTrackers := trackerMismatch.knownTrackers
        lastSeen := lastSeen
        updatedAt := now } : CollisionRow).firstSeen = c0.firstSeen := by
  have hmem : dbState.collisions.any (fun c => c.decisionId == decisionId) = true :=
    List.any_eq_true.mpr ⟨c0, hc, by simp [hid]⟩
  simp only [upsertCollisionRecord, hd, mergeCollisionRow, hmem, if_true]
  refine ⟨by trivial, ?_, by trivial⟩
  exact List.mem_map.mpr ⟨c0, hc, by simp [hid]⟩

/-- C10 witness: merging onto an existing row for decision 10 keeps its
first_seen of 1 while refreshing the other four columns. -/
theorem upsertCollisionRecord_merge_preserves_firstSeen_witness :
    (upsertCollisionRecord
        ⟨[], [], [⟨10, ["x"], ["y"], 1, 2, 3⟩]⟩ 10 ⟨["a"], ["b"]⟩ 7 8 9).collisions =
      [⟨10, ["a"], ["b"], 1, 8, 9⟩] := by
  have h := (upsertCollisionRecord_merge_preserves_firstSeen
    ⟨[], [], [⟨10, ["x"], ["y"], 1, 2, 3⟩]⟩ 10 ⟨["a"], ["b"]⟩ 7 8 9
    ⟨10, ["x"], ["y"], 1, 2, 3⟩ (by decide) (by decide) rfl).1
  simpa using h

/-! ### C9: collisions are recorded only for private == 1 candidates -/

/-- C9: canRecordPrivateCollision accepts only a bencoded private flag
exactly equal to 1: a flag of 0, an absent flag, or no metafile at all
each yield false, and on the cached fast path each of these causes the
decision's collision row to be deleted rather than upserted (in
particular on the cached-decision path with no cached torrent file, where
no metafile is available). -/
theorem canRecordPrivateCollision_requires_flag_one (m : Metafile) (dbState : Db)
    (cacheEntryId : Nat) (cachedDecision : Decision) (cachedFirstSeen : Option Int)
    (trackerMismatch : TrackerMismatchInfo) (meta : Option Metafile) (now : Int) :
    (m.privateFlag = some 0 → canRecordPrivateCollision (some m) = false) ∧
    (m.privateFlag = none → canRecordPrivateCollision (some m) = false) ∧
    (canRecordPrivateCollision none = false) ∧
    (canRecordPrivateCollision meta = false →
      (cachedExcludedFastPath dbState cacheEntryId cachedDecision cachedFirstSeen
          (some trackerMismatch) meta now).collisions.any
        (fun c => c.decisionId == cacheEntryId) = false) ∧
    ((cachedExcludedFastPath dbState cacheEntryId cachedDecision cachedFirstSeen
          (some trackerMismatch) none now).collisions.any
        (fun c => c.decisionId == cacheEntryId) = false) := by
  have hdel : ∀ meta2 : Option Metafile, canRecordPrivateCollision meta2 = false →
      (cachedExcludedFastPath dbState cacheEntryId cachedDecision cachedFirstSeen
          (some trackerMismatch) meta2 now).collisions.any
        (fun c => c.decisionId == cacheEntryId) = false := by
    intro meta2 hm
    simp only [cachedExcludedFastPath, hm, Bool.false_eq_true, if_false]
    exact deleteCollisionRecord_any_self _ _
  refine ⟨?_, ?_, rfl, hdel meta, hdel none rfl⟩
  · intro hflag
    simp [canRecordPrivateCollision, getTorrentPrivateFlag, hflag]
  · intro hflag
    simp [canRecordPrivateCollision, getTorrentPrivateFlag, hflag]

/-- C9 witness: a private=0 metafile is rejected, and the fast path on a
concrete database deletes rather than records the collision row. -/
theorem canRecordPrivateCollision_requires_flag_one_witness :
    (canRecordPrivateCollision (some ⟨"h", "m", [], 0, 1, [], some 0⟩) = false) ∧
    ((cachedExcludedFastPath ⟨[], [], [⟨10, ["a"], ["b"], 0, 0, 0⟩]⟩ 10
        Decision.INFO_HASH_ALREADY_EXISTS (some 0) (some ⟨["a"], ["b"]⟩)
        (some ⟨"h", "m", [], 0, 1, [], some 0⟩) 5).collisions.any
      (fun c => c.decisionId == 10) = false) :=
  ⟨(canRecordPrivateCollision_requires_flag_one ⟨"h", "m", [], 0, 1, [], some 0⟩
      ⟨[], [], [⟨10, ["a"], ["b"], 0, 0, 0⟩]⟩ 10 Decision.INFO_HASH_ALREADY_EXISTS
      (some 0) ⟨["a"], ["b"]⟩ none 5).1 rfl,
   (canRecordPrivateCollision_requires_flag_one ⟨"h", "m", [], 0, 1, [], some 0⟩
      ⟨[], [], [⟨10, ["a"], ["b"], 0, 0, 0⟩]⟩ 10 Decision.INFO_HASH_ALREADY_EXISTS
      (some 0) ⟨["a"], ["b"]⟩ (some ⟨"h", "m", [], 0, 1, [], some 0⟩) 5).2.2.2.1 (by decide)⟩

/-! ### C2: the collision-decision invariant (corrected) -/

/-- C2 counterexample: the already-injected fast path preserves a
previously matched decision while still recording a collision row for it.
Starting from a database whose decision 10 stores MATCH, a cache hit with
a tracker mismatch and a private cached metafile leaves decision 10 at
MATCH and creates a collision row referencing it, so a collision row can
reference a decision row whose stored decision is not
INFO_HASH_ALREADY_EXISTS_ANOTHER_TRACKER. -/
theorem collision_row_with_match_decision_counterexample :
    ((cachedExcludedFastPath
        ⟨[⟨1, some "S"⟩], [⟨10, some 1, "g", some "h", Decision.MATCH, 0, 0, 0⟩], []⟩
        10 Decision.MATCH (some 0) (some ⟨["a"], ["b"]⟩)
        (some ⟨"h", "m", [], 0, 1, [], some 1⟩) 5).collisions =
      [⟨10, ["a"], ["b"], 0, 5, 5⟩]) ∧
    (((cachedExcludedFastPath
        ⟨[⟨1, some "S"⟩], [⟨10, some 1, "g", some "h", Decision.MATCH, 0, 0, 0⟩], []⟩
        10 Decision.MATCH (some 0) (some ⟨["a"], ["b"]⟩)
        (some ⟨"h", "m", [], 0, 1, [], some 1⟩) 5).decisions.find?
      (fun r => r.id == 10)).map (fun r => r.decision) = some Decision.MATCH) ∧
    Decision.MATCH ≠ Decision.INFO_HASH_ALREADY_EXISTS_ANOTHER_TRACKER := by
  refine ⟨by decide, by decide, by decide⟩

/-- C2 as amended: in the assessAndSaveResults persistence step, provided
no pre-existing collision row carries the same tracker payloads (so the
dedup transfer does not reassign the row to another decision_id), a
collision row for the freshly written decision row exists if and only if
the assessment decision is INFO_HASH_ALREADY_EXISTS_ANOTHER_TRACKER, a
tracker mismatch was recorded, and the candidate metafile is flagged
private.  (On the cached fast path the referenced decision row may
instead retain a previously matched decision, as the counterexample
shows.) -/
theorem saveAssessmentStep_collision_iff (dbState : Db) (title guid : String)
    (assessmentDecision : Decision) (mismatch : Option TrackerMismatchInfo)
    (metafile : Metafile) (firstSeen now : Int) (fuzzyFactor : ℚ)
    (searcheeRow : SearcheeRow) (decisionRow : DecisionRow)
    (h1 : dbState.searchees.find? (fun s => s.name == some title) = some searcheeRow)
    (h2 : (upsertDecision dbState.decisions searcheeRow.id guid metafile.infoHash
        assessmentDecision firstSeen now fuzzyFactor).find?
        (fun r => r.searcheeId == some searcheeRow.id && r.guid == guid) = some decisionRow)
    (h3 : ∀ tm : TrackerMismatchInfo, mismatch = some tm →
      ∀ c ∈ dbState.collisions,
        ¬(c.candidateTrackers = tm.candidateTrackers ∧ c.knownTrackers = tm.knownTrackers)) :
    ((saveAssessmentStep dbState title guid assessmentDecision mismatch metafile
        firstSeen now fuzzyFactor).collisions.any
      (fun c => c.decisionId == decisionRow.id)) =
    ((assessmentDecision == Decision.INFO_HASH_ALREADY_EXISTS_ANOTHER_TRACKER) &&
      mismatch.isSome && canRecordPrivateCollision (some metafile)) := by
  simp only [saveAssessmentStep, h1, h2]
  by_cases hd : assessmentDecision == Decision.INFO_HASH_ALREADY_EXISTS_ANOTHER_TRACKER
  · rw [if_pos hd]
    cases mismatch with
    | none =>
      simp only [Option.isSome_none, Bool.and_false, Bool.false_and, Bool.and_self]
      rw [deleteCollisionRecord_any_self]
    | some tm =>
      by_cases hrec : canRecordPrivateCollision (some metafile)
      · simp only [hrec, if_true]
        have hdedup : collisionDedupTarget
            { dbState with
              decisions := upsertDecision dbState.decisions searcheeRow.id guid
                metafile.infoHash assessmentDecision firstSeen now fuzzyFactor }
            decisionRow.id tm.candidateTrackers tm.knownTrackers = none := by
          apply collisionDedupTarget_eq_none_of_no_payload
          exact h3 tm rfl
        simp only [upsertCollisionRecord, hdedup, hd, hrec]
        rw [mergeCollisionRow_any_self]
        simp
      · simp only [hrec, Bool.false_eq_true, if_false]
        rw [deleteCollisionRecord_any_self]
        simp [hrec]
  · rw [if_neg hd]
    rw [deleteCollisionRecord_any_self]
    simp only [Bool.not_eq_true] at hd
    simp [hd]

/-- C2 witness: persisting a cross-tracker assessment with a private
candidate into a database with no prior collisions creates exactly the
collision row for the new decision. -/
theorem saveAssessmentStep_collision_iff_witness :
    ((saveAssessmentStep ⟨[⟨1, some "S"⟩], [], []⟩ "S" "g"
        Decision.INFO_HASH_ALREADY_EXISTS_ANOTHER_TRACKER (some ⟨["a"], ["b"]⟩)
        ⟨"h", "m", [], 0, 1, [], some 1⟩ 0 5 0).collisions.any
      (fun c => c.decisionId == 1)) =
    ((Decision.INFO_HASH_ALREADY_EXISTS_ANOTHER_TRACKER ==
        Decision.INFO_HASH_ALREADY_EXISTS_ANOTHER_TRACKER) &&
      (some (⟨["a"], ["b"]⟩ : TrackerMismatchInfo)).isSome &&
      canRecordPrivateCollision (some ⟨"h", "m", [], 0, 1, [], some 1⟩)) :=
  saveAssessmentStep_collision_iff ⟨[⟨1, some "S"⟩], [], []⟩ "S" "g"
    Decision.INFO_HASH_ALREADY_EXISTS_ANOTHER_TRACKER (some ⟨["a"], ["b"]⟩)
    ⟨"h", "m", [], 0, 1, [], some 1⟩ 0 5 0 ⟨1, some "S"⟩
    ⟨1, some 1, "g", some "h", Decision.INFO_HASH_ALREADY_EXISTS_ANOTHER_TRACKER, 0, 5, 0⟩
    (by decide) (by decide) (by intro tm htm c hc; simp at hc)

/-! ### C6: saveRules replaces the whole rule set with priorities 1..N -/

theorem enumFrom_succ_map (l : List ConflictRuleInput) :
    ∀ n : Nat, (List.enumFrom n l).map (fun p => p.1 + 1) = List.range' (n + 1) l.length := by
  induction l with
  | nil => intro n; rfl
  | cons x xs ih =>
    intro n
    simp only [List.enumFrom, List.map_cons, List.length_cons, List.range'_succ]
    exact congrArg (List.cons (n + 1)) (ih (n + 1))

/-- C6: saveRules replaces the entire stored rule set in one transaction
(modelled as a single state transformation): the stored priorities after
any save form the contiguous sequence 1..N in input order; applying
saveRules(R) twice at the same instant leaves the state of a single
application, and even across different save instants the stored rule
content (priority, all_indexers, trackers) is the same as that of a
single application from any prior state. -/
theorem saveRules_priorities_and_idempotent (R : List ConflictRuleInput)
    (now now2 : Int) (stored stored2 : List ConflictRuleStoredRow) :
    ((saveRules R now stored).map (fun r => r.priority) = List.range' 1 R.length) ∧
    (saveRules R now (saveRules R now stored) = saveRules R now stored) ∧
    ((saveRules R now2 (saveRules R now stored)).map storedRuleContent =
      (saveRules R now stored2).map storedRuleContent) := by
  refine ⟨?_, rfl, ?_⟩
  · unfold saveRules
    by_cases h : R.isEmpty
    · rw [if_pos h]
      rw [List.isEmpty_iff] at h
      simp [h]
    · rw [if_neg h]
      rw [List.map_map]
      have := enumFrom_succ_map R 0
      simpa [List.enum, Function.comp] using this
  · unfold saveRules
    by_cases h : R.isEmpty
    · simp [h]
    · simp [h, List.map_map, storedRuleContent, Function.comp]

/-! ### C4: size-only matching under STRICT and non-STRICT modes
(corrected: the code's test is the greedy comparison, not bijection
existence) -/

/-- C4 counterexample: candidate files a,b and searchee files x,y all of
length 5 admit a size-only bijection (equal length multisets) and no full
tree match, yet compareFileTreesIgnoringNames fails (two files share the
length and none shares a name), so assessment returns SIZE_MISMATCH in
both FLEXIBLE and STRICT modes: not MATCH_SIZE_ONLY in non-strict mode
and not FILE_TREE_MISMATCH in strict mode, contrary to the claim. -/
theorem sizeOnlyBijection_not_sufficient_counterexample :
    (sizeOnlyBijectionExistsSpec
        ⟨"h", "m", [⟨"a", "a", 5⟩, ⟨"b", "b", 5⟩], 10, 1, [], none⟩
        ⟨"t", none, none, [⟨"x", "x", 5⟩, ⟨"y", "y", 5⟩], 10, 0, 0⟩ = true) ∧
    (compareFileTrees
        ⟨"h", "m", [⟨"a", "a", 5⟩, ⟨"b", "b", 5⟩], 10, 1, [], none⟩
        ⟨"t", none, none, [⟨"x", "x", 5⟩, ⟨"y", "y", 5⟩], 10, 0, 0⟩ = false) ∧
    (assessContent MatchMode.FLEXIBLE
        ⟨"h", "m", [⟨"a", "a", 5⟩, ⟨"b", "b", 5⟩], 10, 1, [], none⟩
        ⟨"t", none, none, [⟨"x", "x", 5⟩, ⟨"y", "y", 5⟩], 10, 0, 0⟩ =
      Decision.SIZE_MISMATCH) ∧
    (assessContent MatchMode.STRICT
        ⟨"h", "m", [⟨"a", "a", 5⟩, ⟨"b", "b", 5⟩], 10, 1, [], none⟩
        ⟨"t", none, none, [⟨"x", "x", 5⟩, ⟨"y", "y", 5⟩], 10, 0, 0⟩ =
      Decision.SIZE_MISMATCH) := by
  refine ⟨by decide, by decide, by decide, by decide⟩

/-- C4 as amended: whenever the greedy size-only comparison
(compareFileTreesIgnoringNames: filter by equal length, tie-broken by
equal name) succeeds and the full tree match fails, content matching
returns MATCH_SIZE_ONLY in any non-STRICT mode and FILE_TREE_MISMATCH
(never MATCH_SIZE_ONLY) in STRICT mode. -/
theorem assessContent_sizeOnly_by_matchMode (matchMode : MatchMode) (m : Metafile)
    (s : Searchee)
    (hsize : compareFileTreesIgnoringNames m s = true)
    (hperfect : compareFileTrees m s = false) :
    assessContent matchMode m s =
      (if matchMode == MatchMode.STRICT then Decision.FILE_TREE_MISMATCH
       else Decision.MATCH_SIZE_ONLY) := by
  cases matchMode <;> simp [assessContent, hsize, hperfect]

/-- C4 witness: a single-file pair of equal length and different names
passes the greedy comparison, fails the full tree match, and yields
FILE_TREE_MISMATCH under STRICT and MATCH_SIZE_ONLY under FLEXIBLE. -/
theorem assessContent_sizeOnly_by_matchMode_witness :
    (compareFileTreesIgnoringNames ⟨"h", "m", [⟨"a", "a", 5⟩], 5, 1, [], none⟩
        ⟨"t", none, none, [⟨"x", "x", 5⟩], 5, 0, 0⟩ = true) ∧
    (compareFileTrees ⟨"h", "m", [⟨"a", "a", 5⟩], 5, 1, [], none⟩
        ⟨"t", none, none, [⟨"x", "x", 5⟩], 5, 0, 0⟩ = false) ∧
    (assessContent MatchMode.STRICT ⟨"h", "m", [⟨"a", "a", 5⟩], 5, 1, [], none⟩
        ⟨"t", none, none, [⟨"x", "x", 5⟩], 5, 0, 0⟩ = Decision.FILE_TREE_MISMATCH) ∧
    (assessContent MatchMode.FLEXIBLE ⟨"h", "m", [⟨"a", "a", 5⟩], 5, 1, [], none⟩
        ⟨"t", none, none, [⟨"x", "x", 5⟩], 5, 0, 0⟩ = Decision.MATCH_SIZE_ONLY) := by
  refine ⟨by decide, by decide, ?_, ?_⟩
  · have := assessContent_sizeOnly_by_matchMode MatchMode.STRICT
      ⟨"h", "m", [⟨"a", "a", 5⟩], 5, 1, [], none⟩
      ⟨"t", none, none, [⟨"x", "x", 5⟩], 5, 0, 0⟩ (by decide) (by decide)
    simpa using this
  · have := assessContent_sizeOnly_by_matchMode MatchMode.FLEXIBLE
      ⟨"h", "m", [⟨"a", "a", 5⟩], 5, 1, [], none⟩
      ⟨"t", none, none, [⟨"x", "x", 5⟩], 5, 0, 0⟩ (by decide) (by decide)
    simpa using this

/-! ### C1: per-client eviction is not all-or-nothing (corrected) -/

theorem removeStep_eq_delete (clients : List TorrentClient) (infoHash : String)
    (row : ClientSearcheeRow) (table table2 : List ClientSearcheeRow)
    (h : removeStep clients infoHash row table = some table2) :
    ∃ host, row.client_host = some host ∧
      table2 = deleteClientSearchee table infoHash host := by
  unfold removeStep at h
  split at h
  · exact absurd h (by simp)
  · next host heq =>
    split at h
    · exact absurd h (by simp)
    · split at h
      · exact absurd h (by simp)
      · split at h
        · exact absurd h (by simp)
        · exact ⟨host, heq, by injection h with h2; exact h2.symm⟩

theorem removeLoop_sublist (clients : List TorrentClient) (infoHash : String) :
    ∀ (rows table : List ClientSearcheeRow),
      ((removeLoop clients infoHash rows table).2).Sublist table := by
  intro rows
  induction rows with
  | nil => intro table; exact List.Sublist.refl table
  | cons row rest ih =>
    intro table
    simp only [removeLoop]
    cases hstep : removeStep clients infoHash row table with
    | none => exact List.Sublist.refl table
    | some table2 =>
      obtain ⟨host, _, ht2⟩ := removeStep_eq_delete clients infoHash row table table2 hstep
      refine (ih table2).trans ?_
      rw [ht2]
      exact List.filter_sublist table

theorem removeLoop_preserves_other_hashes (clients : List TorrentClient) (infoHash : String) :
    ∀ (rows table : List ClientSearcheeRow) (r : ClientSearcheeRow),
      r ∈ table → ¬(r.info_hash = infoHash) →
      r ∈ (removeLoop clients infoHash rows table).2 := by
  intro rows
  induction rows with
  | nil => intro table r hr _; exact hr
  | cons row rest ih =>
    intro table r hr hH
    simp only [removeLoop]
    cases hstep : removeStep clients infoHash row table with
    | none => exact hr
    | some table2 =>
      obtain ⟨host, _, ht2⟩ := removeStep_eq_delete clients infoHash row table table2 hstep
      apply ih table2 r ?_ hH
      rw [ht2]
      unfold deleteClientSearchee
      exact List.mem_filter.mpr ⟨hr, by simp [hH]⟩

theorem removeLoop_success_clears_hash (clients : List TorrentClient) (infoHash : String) :
    ∀ (rows table : List ClientSearcheeRow),
      (∀ r ∈ table, r.info_hash = infoHash → r ∈ rows) →
      (removeLoop clients infoHash rows table).1 = true →
      (removeLoop clients infoHash rows table).2 =
        table.filter (fun r => !(r.info_hash == infoHash)) := by
  intro rows
  induction rows with
  | nil =>
    intro table hinv _
    simp only [removeLoop]
    symm
    rw [List.filter_eq_self]
    intro a ha
    by_cases hH : a.info_hash = infoHash
    · exact absurd (hinv a ha hH) (List.not_mem_nil a)
    · simp [hH]
  | cons row rest ih =>
    intro table hinv hsucc
    simp only [removeLoop] at hsucc ⊢
    cases hstep : removeStep clients infoHash row table with
    | none => rw [hstep] at hsucc; exact absurd hsucc (by simp)
    | some table2 =>
      rw [hstep] at hsucc
      have hsucc2 : (removeLoop clients infoHash rest table2).1 = true := hsucc
      show (removeLoop clients infoHash rest table2).2 = _
      obtain ⟨host, hch, ht2⟩ := removeStep_eq_delete clients infoHash row table table2 hstep
      have hinv2 : ∀ r ∈ table2, r.info_hash = infoHash → r ∈ rest := by
        intro r hrt2 hrH
        rw [ht2] at hrt2
        unfold deleteClientSearchee at hrt2
        have hmem := List.mem_filter.mp hrt2
        have hrrows := hinv r hmem.1 hrH
        cases List.mem_cons.mp hrrows with
        | inl heqr =>
          exfalso
          have hpred := hmem.2
          have hhost : r.client_host = some host := by rw [heqr, hch]
          rw [hrH, hhost] at hpred
          simp at hpred
        | inr hmem2 => exact hmem2
      rw [ih table2 hinv2 hsucc2, ht2]
      unfold deleteClientSearchee
      rw [List.filter_filter]
      apply List.filter_congr
      intro r _
      by_cases hH : r.info_hash == infoHash
      · simp [hH]
      · simp [hH]

/-- C1 counterexample: two clients own hash h; the first removal succeeds
(and its client_searchee row is deleted at once), the second fails.  The
call returns false, yet the state is changed: the first client's row is
gone.  Eviction is therefore not all-or-nothing and rows are not deleted
only after every client confirms. -/
theorem removeTorrentFromClients_partial_failure_counterexample :
    ((removeTorrentFromClients [⟨"c1", true, true⟩, ⟨"c2", false, true⟩] "h"
        [⟨"h", some "c1", []⟩, ⟨"h", some "c2", []⟩]).1 = false) ∧
    ((removeTorrentFromClients [⟨"c1", true, true⟩, ⟨"c2", false, true⟩] "h"
        [⟨"h", some "c1", []⟩, ⟨"h", some "c2", []⟩]).2 = [⟨"h", some "c2", []⟩]) ∧
    ((removeTorrentFromClients [⟨"c1", true, true⟩, ⟨"c2", false, true⟩] "h"
        [⟨"h", some "c1", []⟩, ⟨"h", some "c2", []⟩]).2 ≠
      [⟨"h", some "c1", []⟩, ⟨"h", some "c2", []⟩]) := by
  refine ⟨by decide, by decide, by decide⟩

/-- C1 as amended: eviction proceeds client by client, deleting each
owning client's client_searchee row immediately after that client
confirms removal; a failure aborts the remaining clients and returns
false, but deletions already performed persist.  Consequently: when the
call returns true every row for the hash has been deleted; the final
table is always a sub-sequence of the initial one (rows are only ever
deleted); and rows of other info-hashes are never touched. -/
theorem removeTorrentFromClients_per_client_deletion (clients : List TorrentClient)
    (infoHash : String) (table : List ClientSearcheeRow) :
    ((removeTorrentFromClients clients infoHash table).1 = true →
      (removeTorrentFromClients clients infoHash table).2 =
        table.filter (fun r => !(r.info_hash == infoHash))) ∧
    (((removeTorrentFromClients clients infoHash table).2).Sublist table) ∧
    (∀ r ∈ table, ¬(r.info_hash = infoHash) →
      r ∈ (removeTorrentFromClients clients infoHash table).2) := by
  unfold removeTorrentFromClients
  by_cases hE : (table.filter (fun r => r.info_hash == infoHash)).isEmpty
  · simp only [hE, if_true]
    refine ⟨?_, List.Sublist.refl table, fun r hr _ => hr⟩
    intro h
    exact absurd h (by simp)
  · simp only [hE, Bool.false_eq_true, if_false]
    refine ⟨?_, removeLoop_sublist clients infoHash _ table,
      fun r hr hH => removeLoop_preserves_other_hashes clients infoHash _ table r hr hH⟩
    intro hsucc
    apply removeLoop_success_clears_hash clients infoHash _ table ?_ hsucc
    intro r hr hrH
    apply List.mem_filter.mpr
    exact ⟨hr, by simp [hrH]⟩

/-- C1 witness: with a single owning client that confirms removal, the
call returns true and the hash's rows are exactly filtered out. -/
theorem removeTorrentFromClients_per_client_deletion_witness :
    (removeTorrentFromClients [⟨"c1", true, true⟩] "h" [⟨"h", some "c1", []⟩]).2 =
      [⟨"h", some "c1", []⟩].filter (fun r => !(r.info_hash == "h")) :=
  (removeTorrentFromClients_per_client_deletion [⟨"c1", true, true⟩] "h"
    [⟨"h", some "c1", []⟩]).1 (by decide)

/-! ### C3: conflict-rule resolution evicts only on strictly better priority -/

/-- C3: resolveConflictRules attempts removal only when the candidate's
best priority (minimum index of the first matching rule over its
trackers) is strictly smaller than the incumbent's best priority, where
an incumbent matching no rule counts as priority rules.length; with an
empty rule set, a candidate matching no rule, or equal priorities it
returns false, attempts no removal, and leaves the client_searchee table
untouched. -/
theorem resolveConflictRules_strict_priority (rules : List ConflictRule)
    (indexerTrackers : List String) (clients : List TorrentClient) (infoHash : String)
    (candidateTrackers : List String) (table : List ClientSearcheeRow) :
    (rules = [] →
      resolveConflictRules rules indexerTrackers clients infoHash candidateTrackers table =
        (⟨false, false⟩, table)) ∧
    (getBestTrackerPriority candidateTrackers rules indexerTrackers = none →
      resolveConflictRules rules indexerTrackers clients infoHash candidateTrackers table =
        (⟨false, false⟩, table)) ∧
    ((resolveConflictRules rules indexerTrackers clients infoHash candidateTrackers
        table).1.attemptedRemoval = true →
      ∃ cp, getBestTrackerPriority candidateTrackers rules indexerTrackers = some cp ∧
        cp < (getBestTrackerPriority
          (((table.filter (fun r => r.info_hash == infoHash)).map (fun r => r.trackers)).flatten)
          rules indexerTrackers).getD rules.length) ∧
    (∀ cp, getBestTrackerPriority candidateTrackers rules indexerTrackers = some cp →
      cp = (getBestTrackerPriority
          (((table.filter (fun r => r.info_hash == infoHash)).map (fun r => r.trackers)).flatten)
          rules indexerTrackers).getD rules.length →
      resolveConflictRules rules indexerTrackers clients infoHash candidateTrackers table =
        (⟨false, false⟩, table)) := by
  refine ⟨?_, ?_, ?_, ?_⟩
  · intro h
    subst h
    simp [resolveConflictRules]
  · intro h
    simp only [resolveConflictRules]
    split
    · rfl
    · split
      · rfl
      · next cp2 hc2 =>
        rw [h] at hc2
        exact absurd hc2 (by simp)
  · intro hatt
    simp only [resolveConflictRules] at hatt
    split at hatt
    · simp at hatt
    · split at hatt
      · simp at hatt
      · next cp hc =>
        split at hatt
        · simp at hatt
        · split at hatt
          · simp at hatt
          · next hnle =>
            exact ⟨cp, hc, Nat.lt_of_not_le hnle⟩
  · intro cp hcp heq
    simp only [resolveConflictRules]
    split
    · rfl
    · split
      · rfl
      · next cp2 hc2 =>
        rw [hcp] at hc2
        have hcp2 : cp2 = cp := by injection hc2 with h2; exact h2.symm
        subst hcp2
        split
        · rfl
        · split
          · rfl
          · next hnle =>
            exact absurd (le_of_eq heq.symm) hnle

/-- C3 witness: with no rules the resolver returns false untouched, and
with equal candidate and incumbent priorities (both match rule 0) it
returns false without attempting removal. -/
theorem resolveConflictRules_strict_priority_witness :
    (resolveConflictRules [] [] [] "h" ["a"] [] = (⟨false, false⟩, [])) ∧
    (resolveConflictRules [⟨false, ["a"]⟩] [] [] "h" ["a"] [⟨"h", some "c", ["a"]⟩] =
      (⟨false, false⟩, [⟨"h", some "c", ["a"]⟩])) :=
  ⟨(resolveConflictRules_strict_priority [] [] [] "h" ["a"] []).1 rfl,
   (resolveConflictRules_strict_priority [⟨false, ["a"]⟩] [] [] "h" ["a"]
      [⟨"h", some "c", ["a"]⟩]).2.2.2 0 (by decide) (by decide)⟩

/-! ### C5: pre-filter order and no I/O before the pre-filters pass -/

/-- C5: in candidate form the pre-filters run in the fixed order release
group, resolution, source, proper/repack, fuzzy size (only for a truthy
advertised size), download link, returning the mismatch decision of the
first failing predicate; all pre-filters passing is exactly what lets the
assessment continue, and the snatch I/O point is reached only when every
pre-filter has passed (and the searchee is not blocklisted). -/
theorem assessCandidatePrefilters_order (env : NameParsers) (candidate : Candidate)
    (searchee : Searchee) (searcheeBlocked : Bool) :
    (releaseGroupDoesMatch env searchee.title candidate.name = false →
      assessCandidatePrefilters env candidate searchee = some Decision.RELEASE_GROUP_MISMATCH) ∧
    (releaseGroupDoesMatch env searchee.title candidate.name = true →
      resolutionDoesMatch env searchee.title candidate.name = false →
      assessCandidatePrefilters env candidate searchee = some Decision.RESOLUTION_MISMATCH) ∧
    (releaseGroupDoesMatch env searchee.title candidate.name = true →
      resolutionDoesMatch env searchee.title candidate.name = true →
      sourceDoesMatch env searchee.title candidate.name = false →
      assessCandidatePrefilters env candidate searchee = some Decision.SOURCE_MISMATCH) ∧
    (releaseGroupDoesMatch env searchee.title candidate.name = true →
      resolutionDoesMatch env searchee.title candidate.name = true →
      sourceDoesMatch env searchee.title candidate.name = true →
      releaseVersionDoesMatch env searchee.title candidate.name = false →
      assessCandidatePrefilters env candidate searchee = some Decision.PROPER_REPACK_MISMATCH) ∧
    (releaseGroupDoesMatch env searchee.title candidate.name = true →
      resolutionDoesMatch env searchee.title candidate.name = true →
      sourceDoesMatch env searchee.title candidate.name = true →
      releaseVersionDoesMatch env searchee.title candidate.name = true →
      ∀ size, candidate.size = some size → (size == 0) = false →
      fuzzySizeDoesMatch size searchee = false →
      assessCandidatePrefilters env candidate searchee = some Decision.FUZZY_SIZE_MISMATCH) ∧
    (releaseGroupDoesMatch env searchee.title candidate.name = true →
      resolutionDoesMatch env searchee.title candidate.name = true →
      sourceDoesMatch env searchee.title candidate.name = true →
      releaseVersionDoesMatch env searchee.title candidate.name = true →
      (match candidate.size with
       | some size => !(size == 0) && !(fuzzySizeDoesMatch size searchee)
       | none => false) = false →
      strTruthy candidate.link = false →
      assessCandidatePrefilters env candidate searchee = some Decision.NO_DOWNLOAD_LINK) ∧
    (releaseGroupDoesMatch env searchee.title candidate.name = true →
      resolutionDoesMatch env searchee.title candidate.name = true →
      sourceDoesMatch env searchee.title candidate.name = true →
      releaseVersionDoesMatch env searchee.title candidate.name = true →
      (match candidate.size with
       | some size => !(size == 0) && !(fuzzySizeDoesMatch size searchee)
       | none => false) = false →
      strTruthy candidate.link = true →
      assessCandidatePrefilters env candidate searchee = none) ∧
    (candidateStageBeforeSnatch env candidate searchee searcheeBlocked =
        CandidateStage.snatchInitiated →
      assessCandidatePrefilters env candidate searchee = none ∧ searcheeBlocked = false) := by
  refine ⟨?_, ?_, ?_, ?_, ?_, ?_, ?_, ?_⟩
  · intro h1
    simp [assessCandidatePrefilters, h1]
  · intro h1 h2
    simp [assessCandidatePrefilters, h1, h2]
  · intro h1 h2 h3
    simp [assessCandidatePrefilters, h1, h2, h3]
  · intro h1 h2 h3 h4
    simp [assessCandidatePrefilters, h1, h2, h3, h4]
  · intro h1 h2 h3 h4 size hsz hsz0 hfz
    simp [assessCandidatePrefilters, h1, h2, h3, h4, hsz, hsz0, hfz]
  · intro h1 h2 h3 h4 hm hlink
    simp [assessCandidatePrefilters, h1, h2, h3, h4, hm, hlink]
  · intro h1 h2 h3 h4 hm hlink
    simp [assessCandidatePrefilters, h1, h2, h3, h4, hm, hlink]
  · intro hstage
    unfold candidateStageBeforeSnatch at hstage
    cases hpf : assessCandidatePrefilters env candidate searchee with
    | some d => rw [hpf] at hstage; simp at hstage
    | none =>
      rw [hpf] at hstage
      cases hb : searcheeBlocked with
      | true => rw [hb] at hstage; simp at hstage
      | false => exact ⟨rfl, rfl⟩

/-- C5 witness: a failing release-group check yields
RELEASE_GROUP_MISMATCH immediately, and a fully passing candidate reaches
the snatch point with no pre-filter rejection. -/
theorem assessCandidatePrefilters_order_witness :
    (assessCandidatePrefilters
        ⟨fun t => some t, fun _ => none, fun _ => none, fun _ => false, fun _ => none,
         id, fun _ => 0⟩
        ⟨"bb", "g", some "l", "tr", none⟩ ⟨"aa", none, none, [], 1, 0, 0⟩ =
      some Decision.RELEASE_GROUP_MISMATCH) ∧
    (assessCandidatePrefilters
        ⟨fun _ => none, fun _ => none, fun _ => none, fun _ => false, fun _ => none,
         id, fun _ => 0⟩
        ⟨"bb", "g", some "l", "tr", none⟩ ⟨"aa", none, none, [], 1, 0, 0⟩ = none ∧
      false = false) :=
  ⟨(assessCandidatePrefilters_order
      ⟨fun t => some t, fun _ => none, fun _ => none, fun _ => false, fun _ => none,
       id, fun _ => 0⟩
      ⟨"bb", "g", some "l", "tr", none⟩ ⟨"aa", none, none, [], 1, 0, 0⟩ false).1 (by decide),
   (assessCandidatePrefilters_order
      ⟨fun _ => none, fun _ => none, fun _ => none, fun _ => false, fun _ => none,
       id, fun _ => 0⟩
      ⟨"bb", "g", some "l", "tr", none⟩ ⟨"aa", none, none, [], 1, 0, 0⟩ false).2.2.2.2.2.2.2
      (by decide)⟩

/-! ### C8: the fuzzy-size pre-filter as a relative-error bound -/

/-- The trivial parser environment of the C8 scenario: no release group,
resolution, source, repack token or anime group is recognized, so every
name-based pre-filter passes. -/
def envC8 : NameParsers :=
  ⟨fun _ => none, fun _ => none, fun _ => none, fun _ => false, fun _ => none, id, fun _ => 0⟩

/-- The C8 scenario searchee: length 1000, fuzzySizeFactor 0.02. -/
def searcheeC8 : Searchee := ⟨"t", none, none, [], 1000, 1 / 50, 0⟩

/-- The C8 scenario candidate: advertised size 2000 with a download
link. -/
def candC8 : Candidate := ⟨"c", "g", some "l", "tr", some 2000⟩

/-- C8: for a positive searchee length, fuzzySizeDoesMatch accepts a size
exactly when the relative deviation |size - length| / length is at most
fuzzySizeFactor(searchee); and in the concrete spec scenario (length
1000, advertised size 2000, factor 1/50) the candidate is rejected as
FUZZY_SIZE_MISMATCH before the snatch point is reached. -/
theorem fuzzySizeDoesMatch_iff_relative_error (resultSize : ℚ) (searchee : Searchee)
    (h : 0 < searchee.length) :
    (fuzzySizeDoesMatch resultSize searchee = true ↔
      |resultSize - (searchee.length : ℚ)| / (searchee.length : ℚ) ≤
        searchee.fuzzySizeFactor) ∧
    candidateStageBeforeSnatch envC8 candC8 searcheeC8 false =
      CandidateStage.preFilterReject Decision.FUZZY_SIZE_MISMATCH := by
  constructor
  · have hL : (0 : ℚ) < (searchee.length : ℚ) := by exact_mod_cast h
    simp only [fuzzySizeDoesMatch, Bool.and_eq_true, decide_eq_true_eq]
    rw [div_le_iff₀ hL, abs_le]
    constructor
    · rintro ⟨h1, h2⟩
      constructor <;> linarith
    · rintro ⟨h1, h2⟩
      constructor <;> linarith
  · simp only [candidateStageBeforeSnatch, assessCandidatePrefilters,
      releaseGroupDoesMatch, resolutionDoesMatch, sourceDoesMatch,
      releaseVersionDoesMatch, fuzzySizeDoesMatch, strTruthy, envC8, searcheeC8, candC8]
    norm_num

/-- C8 witness: the theorem applied to the scenario inputs (size 2000,
length 1000, factor 1/50). -/
theorem fuzzySizeDoesMatch_iff_relative_error_witness :
    ((fuzzySizeDoesMatch 2000 searcheeC8 = true ↔
      |(2000 : ℚ) - (searcheeC8.length : ℚ)| / (searcheeC8.length : ℚ) ≤
        searcheeC8.fuzzySizeFactor) ∧
    candidateStageBeforeSnatch envC8 candC8 searcheeC8 false =
      CandidateStage.preFilterReject Decision.FUZZY_SIZE_MISMATCH) :=
  fuzzySizeDoesMatch_iff_relative_error 2000 searcheeC8 (by decide)

end CrossSeed

